import Mathlib

/-!
Shallow embedding of the query-and-access-control layer of the
Kashmir Wellness backend (Express/Mongoose services), together with
theorems checking the natural-language specification against it.

Modelled source files:
* src/services/orderService.js      (OrderService)
* src/services/medicineService.js   (MedicineService)
* src/services/appointmentService.js (AppointmentService)
* src/utils/apiFeatures.js          (APIFeatures)
* src/models/User.js                (getResetPasswordToken)
* src/controllers/userController.js (forgotPassword, resetPassword)

Mongoose ObjectIds are modelled as `Nat`; a collection is an association
list from id to document; `Model.findById` is association-list lookup and
`document.save()` / `findByIdAndUpdate` is in-place replacement.  A thrown
`ErrorResponse(message, statusCode)` is an `Except.error`; because the
services mutate the store document-by-document, each mutating operation
returns the store as it stands when the operation ends, so that the state
left behind by a mid-sequence throw is visible.
-/

namespace KW

/-- Roles of authenticated principals (User model `role` enum). -/
inductive Role
  | user
  | doctor
  | admin
  | lab_staff
  deriving DecidableEq, Repr

/-- The authenticated principal attached to a request (`req.user`). -/
structure AuthUser where
  id : Nat
  role : Role
  deriving DecidableEq, Repr

/-- src/utils/errorHandler.js: `ErrorResponse(message, statusCode)`. -/
structure ErrorResponse where
  message : String
  statusCode : Nat
  deriving DecidableEq, Repr

/-- `Model.findById` over an association-list collection. -/
def lookupStore {α : Type} : List (Nat × α) → Nat → Option α
  | [], _ => none
  | (k, v) :: rest, key => if k = key then some v else lookupStore rest key

/-- Replace the document with the given id (models `document.save()` and
`Model.findByIdAndUpdate`). -/
def updateStore {α : Type} : List (Nat × α) → Nat → α → List (Nat × α)
  | [], _, _ => []
  | (k, v) :: rest, key, w =>
    if k = key then (k, w) :: rest else (k, v) :: updateStore rest key w

/-- `Model.deleteOne` on the document with the given id. -/
def removeStore {α : Type} : List (Nat × α) → Nat → List (Nat × α)
  | [], _ => []
  | (k, v) :: rest, key => if k = key then rest else (k, v) :: removeStore rest key

/-! ## Medicine documents (src/models/Medicine.js)

`user` is `required: false` in the schema, hence an `Option`. -/

/-- A stored Medicine document.  Fields not touched by the modelled
services (images, manufacturer, expiration) are omitted. -/
structure Medicine where
  name : String
  description : String := ""
  price : Nat
  stock : Nat
  category : String := "Other"
  user : Option Nat := none
  deriving DecidableEq, Repr

/-! ## OrderService (src/services/orderService.js) -/

/-- One entry of `orderItems`: medicine reference plus name/price snapshot
and requested quantity. -/
structure OrderItem where
  medicine : Nat
  name : String
  price : Nat
  quantity : Nat
  deriving DecidableEq, Repr

/-- Order model `orderStatus` enum. -/
inductive OrderStatus
  | pending
  | processing
  | shipped
  | delivered
  | cancelled
  deriving DecidableEq, Repr

/-- A stored Order document.  The Order schema file is not part of the
sources; the fields listed here are exactly the ones orderService.js reads
and writes, and the creation-time defaults (status pending, unpaid,
undelivered) are modelled from the spec: "Persist the Order with
status=pending, paid=false, delivered=false" (§4.4). -/
structure Order where
  user : Nat
  orderItems : List OrderItem
  shippingAddress : String
  paymentMethod : String
  taxPrice : Nat
  shippingPrice : Nat
  totalPrice : Nat
  isPaid : Bool := false
  paidAt : Option Nat := none
  paymentResult : Option String := none
  isDelivered : Bool := false
  deliveredAt : Option Nat := none
  orderStatus : OrderStatus := .pending
  deriving DecidableEq, Repr

/-- The body of `createOrder` (request payload minus the user id). -/
structure OrderData where
  orderItems : List OrderItem
  shippingAddress : String
  paymentMethod : String
  taxPrice : Nat
  shippingPrice : Nat
  totalPrice : Nat
  deriving DecidableEq, Repr

abbrev MedicineStore := List (Nat × Medicine)

/-- The per-item loop of `OrderService.createOrder`: for each item, resolve
the medicine (404 if absent), throw 400 with the available stock if
`medicine.stock < item.quantity`, otherwise decrement the stock and save.
Returns the store as left behind together with the first error thrown, if
any; earlier decrements are NOT rolled back on a later throw. -/
def createOrderLoop : MedicineStore → List OrderItem → MedicineStore × Option ErrorResponse
  | store, [] => (store, none)
  | store, item :: rest =>
    match lookupStore store item.medicine with
    | none => (store, some ⟨"Medicine not found: " ++ item.name, 404⟩)
    | some med =>
      if med.stock < item.quantity then
        (store, some ⟨"Not enough stock for " ++ item.name ++ ". Available: " ++
          toString med.stock, 400⟩)
      else
        createOrderLoop
          (updateStore store item.medicine { med with stock := med.stock - item.quantity })
          rest

/-- `OrderService.createOrder(orderData, userId)`: rejects an empty item
list, runs the stock loop, then persists the order.  The result pairs the
medicine store as the operation leaves it with either the created order or
the thrown `ErrorResponse`. -/
def createOrder (store : MedicineStore) (orderData : OrderData) (userId : Nat) :
    MedicineStore × Except ErrorResponse Order :=
  if orderData.orderItems.isEmpty then
    (store, .error ⟨"No order items", 400⟩)
  else
    match createOrderLoop store orderData.orderItems with
    | (store', some e) => (store', .error e)
    | (store', none) =>
      (store', .ok
        { user := userId
          orderItems := orderData.orderItems
          shippingAddress := orderData.shippingAddress
          paymentMethod := orderData.paymentMethod
          taxPrice := orderData.taxPrice
          shippingPrice := orderData.shippingPrice
          totalPrice := orderData.totalPrice })

abbrev OrderStore := List (Nat × Order)

/-- `OrderService.updateOrderToPaid(id, paymentResultData, authUser)`:
404 if the order is absent, 400 if it is already paid, 403 unless the
principal is an admin; otherwise sets `isPaid`, `paidAt` and
`paymentResult` and saves. -/
def updateOrderToPaid (orders : OrderStore) (id : Nat) (paymentResultData : String)
    (authUser : AuthUser) (now : Nat) : OrderStore × Except ErrorResponse Order :=
  match lookupStore orders id with
  | none => (orders, .error ⟨"Order not found", 404⟩)
  | some o =>
    if o.isPaid then
      (orders, .error ⟨"Order is already paid", 400⟩)
    else if authUser.role ≠ Role.admin then
      (orders, .error ⟨"Not authorized to mark order as paid", 403⟩)
    else
      let o' := { o with isPaid := true, paidAt := some now,
                         paymentResult := some paymentResultData }
      (updateStore orders id o', .ok o')

/-! ## APIFeatures (src/utils/apiFeatures.js)

The Mongoose query values that reach the database after schema casting:
query-string filter values are either strings (equality) or, for the
`gte|gt|lte|lt` operator suffixes, numbers. -/

/-- A casted document field / filter value. -/
inductive Value
  | str (s : String)
  | num (n : Int)
  deriving DecidableEq, Repr

/-- The four range-operator suffixes rewritten by `filter()`
(`gte|gt|lte|lt` → `$gte|$gt|$lte|$lt`). -/
inductive RangeOp
  | gte
  | gt
  | lte
  | lt
  deriving DecidableEq, Repr

/-- Value of one non-reserved query-string parameter: either a plain
equality value (`category=Pain Relief`) or an object of range operators
(`price[gte]=10`). -/
inductive FilterVal
  | plain (v : Value)
  | ops (l : List (RangeOp × Int))
  deriving DecidableEq, Repr

/-- `req.query`: the reserved keys plus the remaining parameters, which
`filter()` treats as field filters.  `none` and `some ""` both stand for a
missing/falsy value (the source guards each reserved key with JS
truthiness). -/
structure QueryString where
  page : Option String := none
  sort : Option String := none
  limit : Option String := none
  fields : Option String := none
  keyword : Option String := none
  filters : List (String × FilterVal) := []
  deriving DecidableEq, Repr

/-- One elementary MongoDB condition as produced by `search()` (regex) or
`filter()` (equality / range). -/
inductive Cond
  | eqVal (field : String) (v : Value)
  | range (field : String) (op : RangeOp) (bound : Int)
  | regexI (field : String) (keyword : String)
  deriving DecidableEq, Repr

/-- A top-level conjunct of the find conditions: either a single field
condition or the `$or` group built by `search()`. -/
inductive MCond
  | simple (c : Cond)
  | orGroup (cs : List Cond)
  deriving DecidableEq, Repr

/-- One sort key: field name, possibly `-`-prefixed for descending. -/
structure SortKey where
  field : String
  descending : Bool
  deriving DecidableEq, Repr

/-- The state of a Mongoose query: accumulated find conditions
(conjunction), sort spec, skip/limit window and field projection.
The projection (`select`) changes which fields are serialized, not which
documents are returned, so executing the query ignores it. -/
structure MQuery where
  conds : List MCond := []
  sortSpec : List SortKey := []
  skip : Nat := 0
  limitTake : Option Nat := none
  selectFields : Option (List String) := none
  deriving DecidableEq, Repr

/-- A document of the medicine collection as seen by the query layer
(the fields the Medicine schema declares and a creation timestamp). -/
structure MDoc where
  name : String
  description : String
  category : String
  price : Int
  stock : Int
  createdAt : Int
  deriving DecidableEq, Repr

/-- Field access by name, with the schema-casted value kind. -/
def MDoc.get (d : MDoc) (f : String) : Option Value :=
  if f = "name" then some (.str d.name)
  else if f = "description" then some (.str d.description)
  else if f = "category" then some (.str d.category)
  else if f = "price" then some (.num d.price)
  else if f = "stock" then some (.num d.stock)
  else if f = "createdAt" then some (.num d.createdAt)
  else none

/-- ASCII lower-casing of one character. -/
def charLower (c : Char) : Char :=
  if 65 ≤ c.toNat ∧ c.toNat ≤ 90 then Char.ofNat (c.toNat + 32) else c

/-- Does the second list start with the first? -/
def beginsWith : List Char → List Char → Bool
  | [], _ => true
  | _ :: _, [] => false
  | p :: ps, h :: hs => p == h && beginsWith ps hs

/-- Does the pattern occur contiguously in the haystack? -/
def containsSeq (pat : List Char) : List Char → Bool
  | [] => pat.isEmpty
  | h :: hs => beginsWith pat (h :: hs) || containsSeq pat hs

/-- Case-insensitive substring test: the semantics of
`{$regex: keyword, $options: "i"}` for a regex-free keyword. -/
def substrCI (hay pat : String) : Bool :=
  containsSeq (pat.toList.map charLower) (hay.toList.map charLower)

/-- Does a document satisfy one elementary condition?  A missing field
matches nothing (per §4.1, an invalid field name simply matches nothing). -/
def matchCond (d : MDoc) : Cond → Bool
  | .eqVal f v => d.get f == some v
  | .range f op bound =>
    match d.get f with
    | some (.num m) =>
      match op with
      | .gte => bound ≤ m
      | .gt => bound < m
      | .lte => m ≤ bound
      | .lt => m < bound
    | some (.str _) => false
    | none => false
  | .regexI f kw =>
    match d.get f with
    | some (.str s) => substrCI s kw
    | some (.num _) => false
    | none => false

/-- A top-level conjunct: an `$or` group holds when any disjunct does. -/
def matchMCond (d : MDoc) : MCond → Bool
  | .simple c => matchCond d c
  | .orGroup cs => cs.any (matchCond d)

/-- Compare two optional field values for sorting: missing sorts first,
then numbers, then strings (the fragment of the BSON type order the
modelled documents can reach). -/
def valueCompare : Option Value → Option Value → Ordering
  | none, none => .eq
  | none, some _ => .lt
  | some _, none => .gt
  | some (.num a), some (.num b) => compare a b
  | some (.num _), some (.str _) => .lt
  | some (.str _), some (.num _) => .gt
  | some (.str a), some (.str b) => compare a b

/-- Lexicographic document comparison along the sort spec, flipping each
`-`-prefixed (descending) key. -/
def compareDocs (spec : List SortKey) (a b : MDoc) : Ordering :=
  match spec with
  | [] => .eq
  | k :: rest =>
    let c := valueCompare (a.get k.field) (b.get k.field)
    let c := if k.descending then c.swap else c
    match c with
    | .eq => compareDocs rest a b
    | o => o

/-- Stable insertion used by `sortDocs`. -/
def insertDoc (spec : List SortKey) (a : MDoc) : List MDoc → List MDoc
  | [] => [a]
  | b :: rest =>
    if compareDocs spec a b = .gt then b :: insertDoc spec a rest
    else a :: b :: rest

/-- Sort a result list along the sort spec (insertion sort; the claims do
not depend on tie order). -/
def sortDocs (spec : List SortKey) : List MDoc → List MDoc
  | [] => []
  | a :: rest => insertDoc spec a (sortDocs spec rest)

/-- Execute a Mongoose query against a collection: filter by the
conjunction of the accumulated conditions, sort, then apply the
skip/limit window. -/
def execQuery (q : MQuery) (coll : List MDoc) : List MDoc :=
  let filtered := coll.filter (fun d => q.conds.all (matchMCond d))
  let sorted := if q.sortSpec.isEmpty then filtered else sortDocs q.sortSpec filtered
  let skipped := sorted.drop q.skip
  match q.limitTake with
  | none => skipped
  | some n => skipped.take n

/-- The `APIFeatures` object: the wrapped query, the request query string,
and the two separately accumulated condition sets ( `searchConditions`
holds the `$or` disjuncts, empty when unset). -/
structure APIFeatures where
  query : MQuery
  queryString : QueryString
  searchConditions : List Cond := []
  filterConditions : List Cond := []
  deriving DecidableEq, Repr

/-- `new APIFeatures(Model.find(), req.query)`. -/
def newAPIFeatures (queryString : QueryString) : APIFeatures :=
  { query := {}, queryString := queryString }

/-- `search(searchFields)`: with a truthy `keyword`, store one
case-insensitive regex disjunct per searchable field. -/
def APIFeatures.search (f : APIFeatures) (searchFields : List String) : APIFeatures :=
  match f.queryString.keyword with
  | some kw =>
    if kw.isEmpty then f
    else { f with searchConditions := searchFields.map (fun fd => Cond.regexI fd kw) }
  | none => f

/-- Translation of one non-reserved parameter into elementary conditions
(the `gte|gt|lte|lt` → `$gte|$gt|$lte|$lt` rewrite). -/
def translateFilter : String × FilterVal → List Cond
  | (f, .plain v) => [Cond.eqVal f v]
  | (f, .ops l) => l.map (fun p => Cond.range f p.1 p.2)

/-- All elementary conditions a query string's non-reserved parameters
denote. -/
def filterConds (qs : QueryString) : List Cond :=
  (qs.filters.map translateFilter).flatten

/-- `filter()`: drop the reserved keys, rewrite the operator suffixes and
store the result in `this.filterConditions`.  NOTE: exactly as in the
source, this does NOT touch `this.query`. -/
def APIFeatures.filter (f : APIFeatures) : APIFeatures :=
  { f with filterConditions := filterConds f.queryString }

/-- `applyFind()`: combine the accumulated search `$or` group and filter
conditions (with `$and` when both are present) and apply them to the
wrapped query.  This is the only method that moves the accumulated
conditions into `this.query`. -/
def APIFeatures.applyFind (f : APIFeatures) : APIFeatures :=
  let conditionsArray : List MCond :=
    (if f.searchConditions.isEmpty then [] else [MCond.orGroup f.searchConditions]) ++
      (if f.filterConditions.isEmpty then [] else f.filterConditions.map MCond.simple)
  { f with query := { f.query with conds := f.query.conds ++ conditionsArray } }

/-- Parse one comma-separated sort token (`-` prefix = descending). -/
def parseSortField (s : String) : SortKey :=
  if s.startsWith "-" then ⟨s.drop 1, true⟩ else ⟨s, false⟩

/-- `sort()`: comma-separated keys, defaulting to descending creation
time. -/
def APIFeatures.sort (f : APIFeatures) : APIFeatures :=
  match f.queryString.sort with
  | some s =>
    if s.isEmpty then
      { f with query := { f.query with sortSpec := [⟨"createdAt", true⟩] } }
    else
      { f with query := { f.query with sortSpec := (s.splitOn ",").map parseSortField } }
  | none => { f with query := { f.query with sortSpec := [⟨"createdAt", true⟩] } }

/-- `limitFields()`: record the projection (`select`); absent or falsy
`fields` selects everything but `__v`, modelled as no projection. -/
def APIFeatures.limitFields (f : APIFeatures) : APIFeatures :=
  match f.queryString.fields with
  | some s =>
    if s.isEmpty then { f with query := { f.query with selectFields := none } }
    else { f with query := { f.query with selectFields := some (s.splitOn ",") } }
  | none => { f with query := { f.query with selectFields := none } }

/-- `parseInt(x, 10) || d` for a canonical integer string: a missing or
unparseable value, and the falsy `0`, fall back to the default. -/
def parseIntFalsy (s : Option String) (d : Int) : Int :=
  match s with
  | none => d
  | some str =>
    match str.toInt? with
    | none => d
    | some n => if n = 0 then d else n

/-- `paginate()`: `page` (default 1) and `limit` (default 25) become a
skip/take window. -/
def APIFeatures.paginate (f : APIFeatures) : APIFeatures :=
  let page := parseIntFalsy f.queryString.page 1
  let lim := parseIntFalsy f.queryString.limit 25
  let skip := (page - 1) * lim
  { f with query := { f.query with skip := skip.toNat, limitTake := some lim.toNat } }

/-- `MedicineService.getMedicines(queryParams)` over a collection:
exactly the chain from the source,
`new APIFeatures(Medicine.find(), queryParams).filter().sort().limitFields().paginate()`,
then executing `features.query`.  The chain never calls `applyFind()`. -/
def getMedicines (coll : List MDoc) (queryParams : QueryString) : List MDoc :=
  execQuery ((((newAPIFeatures queryParams).filter).sort).limitFields).paginate.query coll

/-- Does a document match every filter the query string supplies?  This is
the reading of "records matching ALL the supplied filters". -/
def matchesAllFilters (qs : QueryString) (d : MDoc) : Bool :=
  (filterConds qs).all (matchCond d)

/-- A list endpoint that requests keyword search, per the combination the
APIFeatures source documents:
`new APIFeatures(Model.find(), q).search(fields).filter().applyFind()`,
then executing the query (pre-pagination). -/
def searchFindResults (coll : List MDoc) (queryParams : QueryString)
    (searchFields : List String) : List MDoc :=
  execQuery ((((newAPIFeatures queryParams).search searchFields).filter).applyFind).query coll

/-! ## AppointmentService (src/services/appointmentService.js) and the
Appointment model (src/models/Appointment.js) -/

/-- Appointment `type` enum. -/
inductive AppointmentType
  | online
  | offline
  | lab
  deriving DecidableEq, Repr

/-- Appointment `status` enum. -/
inductive AppointmentStatus
  | pending
  | confirmed
  | cancelled
  | completed
  deriving DecidableEq, Repr

/-- A GeoJSON Point as stored on Doctor/Lab documents. -/
structure GeoPoint where
  coordinates : List Int
  deriving DecidableEq, Repr

/-- The appointment `location` snapshot: coordinate pair plus address. -/
structure LocationSnapshot where
  coordinates : List Int
  address : String
  deriving DecidableEq, Repr

/-- A Doctor document, restricted to the fields the appointment service
reads.  `clinicAddress = none` stands for a missing or empty (falsy)
address. -/
structure Doctor where
  user : Nat
  name : String := ""
  clinicAddress : Option String := none
  location : Option GeoPoint := none
  deriving DecidableEq, Repr

/-- A Lab document, restricted to the fields the appointment service
reads. -/
structure Lab where
  name : String := ""
  address : Option String := none
  location : Option GeoPoint := none
  deriving DecidableEq, Repr

/-- A stored Appointment document. -/
structure Appointment where
  user : Nat
  doctor : Option Nat
  lab : Option Nat
  appointmentDate : String
  appointmentTime : String
  type : AppointmentType
  status : AppointmentStatus
  reason : Option String
  location : Option LocationSnapshot
  deriving DecidableEq, Repr

/-- The `createAppointment` request payload (minus the user id the service
attaches).  `type = none` models an unspecified or falsy caller type. -/
structure AppointmentData where
  doctor : Option Nat := none
  lab : Option Nat := none
  type : Option AppointmentType := none
  appointmentDate : String := ""
  appointmentTime : String := ""
  reason : Option String := none
  deriving DecidableEq, Repr

abbrev DoctorStore := List (Nat × Doctor)
abbrev LabStore := List (Nat × Lab)
abbrev AppointmentStore := List (Nat × Appointment)

/-- `AppointmentService.createAppointment(appointmentData, userId)`:
reject doctor-and-lab and neither-doctor-nor-lab; with a doctor, default
the type to offline, resolve the doctor (404 if absent) and snapshot its
location when coordinates and a truthy clinicAddress are present; with a
lab, force the type to lab, resolve the lab (404 if absent) and snapshot
likewise; persist with status pending.  The final `none/none` branch is
unreachable because of the second guard. -/
def createAppointment (doctors : DoctorStore) (labs : LabStore)
    (appointmentData : AppointmentData) (userId : Nat) :
    Except ErrorResponse Appointment :=
  if appointmentData.doctor.isSome && appointmentData.lab.isSome then
    .error ⟨"An appointment cannot be associated with both a doctor and a lab.", 400⟩
  else if appointmentData.doctor.isNone && appointmentData.lab.isNone then
    .error ⟨"An appointment must be associated with either a doctor or a lab.", 400⟩
  else
    match appointmentData.doctor with
    | some did =>
      let ty := appointmentData.type.getD AppointmentType.offline
      match lookupStore doctors did with
      | none => .error ⟨"Doctor not found with id " ++ toString did, 404⟩
      | some doc =>
        let loc : Option LocationSnapshot :=
          match doc.location, doc.clinicAddress with
          | some l, some addr => some ⟨l.coordinates, addr⟩
          | _, _ => none
        .ok { user := userId, doctor := some did, lab := none,
              appointmentDate := appointmentData.appointmentDate,
              appointmentTime := appointmentData.appointmentTime,
              type := ty, status := .pending,
              reason := appointmentData.reason, location := loc }
    | none =>
      match appointmentData.lab with
      | some lid =>
        match lookupStore labs lid with
        | none => .error ⟨"Lab not found with id " ++ toString lid, 404⟩
        | some lb =>
          let loc : Option LocationSnapshot :=
            match lb.location, lb.address with
            | some l, some addr => some ⟨l.coordinates, addr⟩
            | _, _ => none
          .ok { user := userId, doctor := none, lab := some lid,
                appointmentDate := appointmentData.appointmentDate,
                appointmentTime := appointmentData.appointmentTime,
                type := .lab, status := .pending,
                reason := appointmentData.reason, location := loc }
      | none =>
        .error ⟨"An appointment must be associated with either a doctor or a lab.", 400⟩

/-- An `updateAppointment` payload after Mongoose strict-schema casting:
unknown client fields are discarded, known fields are optional
(`none` = absent from the payload, hence left untouched by `$set`). -/
structure AppointmentUpdate where
  status : Option AppointmentStatus := none
  reason : Option String := none
  appointmentDate : Option String := none
  appointmentTime : Option String := none
  type : Option AppointmentType := none
  deriving DecidableEq, Repr

/-- `findByIdAndUpdate` semantics: present payload fields overwrite, the
rest keep their stored value ( Mongoose drops `undefined` update values). -/
def applyAppointmentUpdate (a : Appointment) (u : AppointmentUpdate) : Appointment :=
  { a with
    status := u.status.getD a.status
    reason := match u.reason with | some r => some r | none => a.reason
    appointmentDate := u.appointmentDate.getD a.appointmentDate
    appointmentTime := u.appointmentTime.getD a.appointmentTime
    type := u.type.getD a.type }

/-- `Doctor.findOne({ user: authUser.id })`. -/
def findDoctorByUser (doctors : DoctorStore) (uid : Nat) : Option (Nat × Doctor) :=
  doctors.find? (fun p => p.2.user == uid)

/-- The role name as it appears in error messages. -/
def Role.toName : Role → String
  | .user => "user"
  | .doctor => "doctor"
  | .admin => "admin"
  | .lab_staff => "lab_staff"

/-- `AppointmentService.updateAppointment(id, updateData, authUser)`:
404 if absent; admin applies the whole (schema-casted) payload; a doctor
must have a profile assigned to the appointment and then only
`{status, reason}` are applied; a user must own the appointment and
request status cancelled, which is then forced; any other role gets 403.
Returns the store as the operation leaves it. -/
def updateAppointment (appointments : AppointmentStore) (doctors : DoctorStore)
    (id : Nat) (updateData : AppointmentUpdate) (authUser : AuthUser) :
    AppointmentStore × Except ErrorResponse Appointment :=
  match lookupStore appointments id with
  | none =>
    (appointments, .error ⟨"Appointment not found with id of " ++ toString id, 404⟩)
  | some appointment =>
    match authUser.role with
    | Role.admin =>
      let a' := applyAppointmentUpdate appointment updateData
      (updateStore appointments id a', .ok a')
    | Role.doctor =>
      match findDoctorByUser doctors authUser.id with
      | none =>
        (appointments, .error ⟨"Doctor " ++ toString authUser.id ++
          " is not authorized to update this appointment", 401⟩)
      | some (profileId, _) =>
        if appointment.doctor = some profileId then
          let a' := applyAppointmentUpdate appointment
            { status := updateData.status, reason := updateData.reason }
          (updateStore appointments id a', .ok a')
        else
          (appointments, .error ⟨"Doctor " ++ toString authUser.id ++
            " is not authorized to update this appointment", 401⟩)
    | Role.user =>
      if appointment.user = authUser.id ∧ updateData.status = some .cancelled then
        let a' := applyAppointmentUpdate appointment { status := some .cancelled }
        (updateStore appointments id a', .ok a')
      else
        (appointments, .error ⟨"User " ++ toString authUser.id ++
          " is not authorized to update this appointment or perform this action", 401⟩)
    | Role.lab_staff =>
      (appointments, .error ⟨"User role " ++ Role.toName authUser.role ++
        " is not authorized to update appointments", 403⟩)

/-! ## Password reset (src/models/User.js `getResetPasswordToken`,
src/controllers/userController.js `forgotPassword` / `resetPassword`)

`crypto.randomBytes(20).toString("hex")` is external randomness and
`crypto.createHash("sha256")...digest("hex")` an external digest, so the
raw token and the hash function are parameters; the controller and the
model method apply the SAME `hash` to issue and to match, exactly as both
sites construct the same sha256-hex digest. -/

/-- A stored User document, restricted to the fields of the reset flow. -/
structure UserDoc where
  email : String
  password : String
  name : String := ""
  resetPasswordToken : Option String := none
  resetPasswordExpire : Option Nat := none
  deriving DecidableEq, Repr

/-- `UserSchema.methods.getResetPasswordToken`: persist the sha256 digest
of the fresh raw token plus a 10-minute expiry; return the raw token. -/
def getResetPasswordToken (hash : String → String) (resetToken : String) (now : Nat)
    (u : UserDoc) : String × UserDoc :=
  (resetToken,
    { u with
      resetPasswordToken := some (hash resetToken)
      resetPasswordExpire := some (now + 10 * 60 * 1000) })

/-- The `User.findOne({resetPasswordToken, resetPasswordExpire: {$gt: now}})`
match condition. -/
def resetTokenMatches (hashed : String) (now : Nat) (u : UserDoc) : Bool :=
  u.resetPasswordToken == some hashed &&
    match u.resetPasswordExpire with
    | some e => now < e
    | none => false

/-- The find-and-update step of `resetPassword` over the user collection:
the first user whose persisted token matches the digest (and is
unexpired) gets the new password and cleared token fields; otherwise 400.
(The bcrypt pre-save hook is the external credential service; the stored
credential is modelled as the new password itself.) -/
def resetPasswordAux (hashed newPassword : String) (now : Nat) :
    List UserDoc → List UserDoc × Except ErrorResponse UserDoc
  | [] => ([], .error ⟨"Invalid or expired reset token", 400⟩)
  | u :: rest =>
    if resetTokenMatches hashed now u then
      let u' := { u with password := newPassword, resetPasswordToken := none,
                         resetPasswordExpire := none }
      (u' :: rest, .ok u')
    else
      let (rest', r) := resetPasswordAux hashed newPassword now rest
      (u :: rest', r)

/-- `resetPassword(req.params.resettoken, req.body.password)`: hash the
caller-supplied raw token, then find-and-update. -/
def resetPassword (hash : String → String) (users : List UserDoc) (resettoken : String)
    (newPassword : String) (now : Nat) : List UserDoc × Except ErrorResponse UserDoc :=
  resetPasswordAux (hash resettoken) newPassword now users

/-- The JSON success payload `res.status(200).json({success, data})`. -/
structure ApiResponse where
  status : Nat
  success : Bool
  data : String
  deriving DecidableEq, Repr

/-- The find-and-update step of `forgotPassword`: an unknown email
answers the generic success without touching the store; a known email
gets a token issued (and rolled back again if the notifier fails). -/
def forgotPasswordAux (hash : String → String) (email raw : String) (now : Nat)
    (emailSendOk : Bool) : List UserDoc → List UserDoc × Except ErrorResponse ApiResponse
  | [] => ([], .ok ⟨200, true, "Email sent"⟩)
  | u :: rest =>
    if u.email = email then
      let (_, u1) := getResetPasswordToken hash raw now u
      if emailSendOk then
        (u1 :: rest, .ok ⟨200, true, "Email sent"⟩)
      else
        let u2 := { u1 with resetPasswordToken := none, resetPasswordExpire := none }
        (u2 :: rest, .error ⟨"Email could not be sent", 500⟩)
    else
      let (rest', r) := forgotPasswordAux hash email raw now emailSendOk rest
      (u :: rest', r)

/-- `forgotPassword(req.body.email)`.  `raw` is the random token the model
method would generate; `emailSendOk` is the notifier outcome. -/
def forgotPassword (hash : String → String) (users : List UserDoc) (email raw : String)
    (now : Nat) (emailSendOk : Bool) : List UserDoc × Except ErrorResponse ApiResponse :=
  forgotPasswordAux hash email raw now emailSendOk users

/-! ## MedicineService update/delete (src/services/medicineService.js) -/

/-- An `updateMedicine` payload after Mongoose strict-schema casting. -/
structure MedicineUpdate where
  name : Option String := none
  description : Option String := none
  price : Option Nat := none
  stock : Option Nat := none
  category : Option String := none
  deriving DecidableEq, Repr

/-- `findByIdAndUpdate` for medicines. -/
def applyMedicineUpdate (m : Medicine) (u : MedicineUpdate) : Medicine :=
  { m with
    name := u.name.getD m.name
    description := u.description.getD m.description
    price := u.price.getD m.price
    stock := u.stock.getD m.stock
    category := u.category.getD m.category }

/-- Outcome of a service call as JavaScript delivers it: a value, a thrown
`ErrorResponse`, or an uncaught `TypeError` from dereferencing a missing
value. -/
inductive JsOutcome (α : Type)
  | ok (a : α)
  | errorResponse (e : ErrorResponse)
  | typeError (msg : String)
  deriving DecidableEq, Repr

/-- Is the outcome an uncaught TypeError? -/
def JsOutcome.isTypeError {α : Type} : JsOutcome α → Bool
  | .typeError _ => true
  | _ => false

/-- `MedicineService.updateMedicine(id, updateData, authUser)`.  The
authorization line
`medicine.user.toString() !== authUser.id && authUser.role !== "admin"`
evaluates `medicine.user.toString()` first, so when the optional `user`
field is absent the call dies with a TypeError before the admin
alternative can short-circuit. -/
def updateMedicine (medicines : MedicineStore) (id : Nat) (updateData : MedicineUpdate)
    (authUser : AuthUser) : MedicineStore × JsOutcome Medicine :=
  match lookupStore medicines id with
  | none =>
    (medicines, .errorResponse ⟨"Medicine not found with id of " ++ toString id, 404⟩)
  | some medicine =>
    match medicine.user with
    | none =>
      (medicines, .typeError "Cannot read properties of undefined (reading toString)")
    | some owner =>
      if owner ≠ authUser.id ∧ authUser.role ≠ Role.admin then
        (medicines, .errorResponse ⟨"User " ++ toString authUser.id ++
          " is not authorized to update this medicine", 401⟩)
      else
        let m' := applyMedicineUpdate medicine updateData
        (updateStore medicines id m', .ok m')

/-- `MedicineService.deleteMedicine(id, authUser)`: same authorization
line, then `medicine.deleteOne()`. -/
def deleteMedicine (medicines : MedicineStore) (id : Nat) (authUser : AuthUser) :
    MedicineStore × JsOutcome Unit :=
  match lookupStore medicines id with
  | none =>
    (medicines, .errorResponse ⟨"Medicine not found with id of " ++ toString id, 404⟩)
  | some medicine =>
    match medicine.user with
    | none =>
      (medicines, .typeError "Cannot read properties of undefined (reading toString)")
    | some owner =>
      if owner ≠ authUser.id ∧ authUser.role ≠ Role.admin then
        (medicines, .errorResponse ⟨"User " ++ toString authUser.id ++
          " is not authorized to delete this medicine", 401⟩)
      else
        (removeStore medicines id, .ok ())

/-! ## Concrete documents used by the closed evaluations below -/

/-- Demo medicine document for the query layer. -/
def aspirinDoc : MDoc :=
  { name := "Aspirin", description := "pain relief tablet", category := "Pain Relief",
    price := 5, stock := 3, createdAt := 1 }

/-- Demo query string: the single range filter `price[gte]=10`. -/
def priceGte10Query : QueryString :=
  { filters := [("price", FilterVal.ops [(RangeOp.gte, 10)])] }

/-- Demo query string: `keyword=aspirin&category=Vitamins`. -/
def kwVitaminsQuery : QueryString :=
  { keyword := some "aspirin",
    filters := [("category", FilterVal.plain (Value.str "Vitamins"))] }

/-- Demo query string: `keyword=aspirin&category=Pain Relief`. -/
def kwPainReliefQuery : QueryString :=
  { keyword := some "aspirin",
    filters := [("category", FilterVal.plain (Value.str "Pain Relief"))] }

/-- Demo medicine for the order flow (the §8 scenario). -/
def paracetamol : Medicine :=
  { name := "Paracetamol", description := "", price := 5, stock := 10 }

/-- Demo medicine store. -/
def demoMedStore : MedicineStore := [(1, paracetamol)]

/-- Demo order line item: quantity 3 of medicine 1. -/
def demoOrderItem : OrderItem :=
  { medicine := 1, name := "Paracetamol", price := 5, quantity := 3 }

/-- Demo order payload with the single line item. -/
def demoOrderData : OrderData :=
  { orderItems := [demoOrderItem], shippingAddress := "Srinagar", paymentMethod := "COD",
    taxPrice := 0, shippingPrice := 0, totalPrice := 15 }

/-- Demo order payload requesting quantity 20. -/
def demoBigOrderData : OrderData :=
  { demoOrderData with
    orderItems := [{ demoOrderItem with quantity := 20 }] }

/-- Demo unpaid stored order. -/
def demoOrder : Order :=
  { user := 42, orderItems := [demoOrderItem], shippingAddress := "Srinagar",
    paymentMethod := "COD", taxPrice := 0, shippingPrice := 0, totalPrice := 15 }

/-- Demo order store. -/
def demoOrderStore : OrderStore := [(5, demoOrder)]

/-- Demo doctor with a location and clinic address. -/
def demoDoctor : Doctor :=
  { user := 9, name := "Dr. A", clinicAddress := some "Clinic X",
    location := some ⟨[748, 341]⟩ }

/-- Demo doctor store. -/
def demoDoctorStore : DoctorStore := [(3, demoDoctor)]

/-- Demo lab store. -/
def demoLabStore : LabStore := [(8, { name := "Lab L", address := some "Lal Chowk" })]

/-- Demo stored appointment owned by user 42 and assigned to doctor 3. -/
def demoAppointment : Appointment :=
  { user := 42, doctor := some 3, lab := none, appointmentDate := "2025-10-01",
    appointmentTime := "10:00 AM", type := .offline, status := .pending,
    reason := some "checkup", location := some ⟨[748, 341], "Clinic X"⟩ }

/-- Demo appointment store. -/
def demoAppointmentStore : AppointmentStore := [(6, demoAppointment)]

/-- Demo update payload that also tries to move the appointment. -/
def demoSneakyUpdate : AppointmentUpdate :=
  { status := some .confirmed, reason := some "done",
    appointmentDate := some "2099-01-01", appointmentTime := some "11:00 PM",
    type := some .online }

/-- Demo user document. -/
def demoUser : UserDoc := { email := "a@b.c", password := "old" }

/-- Demo stand-in digest function for witnesses (the theorems hold for
every digest function). -/
def demoHash (s : String) : String := "h" ++ s

/-- Demo ownerless medicine store (id 2, `user` absent). -/
def demoOwnerlessStore : MedicineStore := [(2, { paracetamol with user := none })]

/-- Demo owned medicine store (id 2, owned by user 7). -/
def demoOwnedStore : MedicineStore := [(2, { paracetamol with user := some 7 })]

/-! ## Store helper lemmas -/

theorem lookupStore_updateStore_self {α : Type} (l : List (Nat × α)) (key : Nat) (w : α)
    (h : (lookupStore l key).isSome) : lookupStore (updateStore l key w) key = some w := by
  induction l with
  | nil => simp [lookupStore] at h
  | cons p rest ih =>
    obtain ⟨k, v⟩ := p
    by_cases hk : k = key
    · simp [lookupStore, updateStore, hk]
    · simp [lookupStore, updateStore, hk] at h ⊢
      exact ih h

/-! ## Claim theorems -/

/-- Claim C1: for an order whose single line item requests quantity Q of a
medicine with current stock S, if Q ≤ S the operation persists the order
and leaves the medicine at stock S−Q; if Q > S it fails with the
insufficient-stock error carrying the available stock S, and the
medicine's stock is unchanged. -/
theorem createOrder_single_item_stock (store : MedicineStore) (mid : Nat) (med : Medicine)
    (item : OrderItem) (odata : OrderData) (userId : Nat)
    (hitems : odata.orderItems = [item]) (hmid : item.medicine = mid)
    (hmed : lookupStore store mid = some med) :
    (item.quantity ≤ med.stock →
      ∃ o, createOrder store odata userId =
        (updateStore store mid { med with stock := med.stock - item.quantity }, .ok o) ∧
        o.orderItems = [item] ∧ o.user = userId ∧
        lookupStore (createOrder store odata userId).1 mid =
          some { med with stock := med.stock - item.quantity }) ∧
    (med.stock < item.quantity →
      createOrder store odata userId =
        (store, .error ⟨"Not enough stock for " ++ item.name ++ ". Available: " ++
          toString med.stock, 400⟩) ∧
      lookupStore (createOrder store odata userId).1 mid = some med) := by
  constructor
  · intro hq
    have hno : ¬ med.stock < item.quantity := Nat.not_lt.mpr hq
    have hrun : createOrder store odata userId =
        (updateStore store mid { med with stock := med.stock - item.quantity },
         .ok { user := userId
               orderItems := odata.orderItems
               shippingAddress := odata.shippingAddress
               paymentMethod := odata.paymentMethod
               taxPrice := odata.taxPrice
               shippingPrice := odata.shippingPrice
               totalPrice := odata.totalPrice }) := by
      simp [createOrder, hitems, createOrderLoop, hmid, hmed, hno]
    refine ⟨_, hrun, by simp [hitems], rfl, ?_⟩
    rw [hrun]
    exact lookupStore_updateStore_self store mid _ (by simp [hmed])
  · intro hq
    have hrun : createOrder store odata userId =
        (store, .error ⟨"Not enough stock for " ++ item.name ++ ". Available: " ++
          toString med.stock, 400⟩) := by
      simp [createOrder, hitems, createOrderLoop, hmid, hmed, hq]
    exact ⟨hrun, by rw [hrun]; exact hmed⟩

/-- Witness for C1 at the §8 scenario: ordering 3 of 10 leaves stock 7 and
persists the order; ordering 20 of 10 fails carrying "Available: 10" and
leaves stock 10. -/
theorem createOrder_single_item_stock_witness :
    (∃ o, createOrder demoMedStore demoOrderData 42 =
      (updateStore demoMedStore 1 { paracetamol with stock := 7 }, .ok o) ∧
      o.orderItems = [demoOrderItem] ∧ o.user = 42 ∧
      lookupStore (createOrder demoMedStore demoOrderData 42).1 1 =
        some { paracetamol with stock := 7 }) ∧
    (createOrder demoMedStore demoBigOrderData 42 =
      (demoMedStore, .error ⟨"Not enough stock for Paracetamol. Available: 10", 400⟩) ∧
      lookupStore (createOrder demoMedStore demoBigOrderData 42).1 1 = some paracetamol) := by
  constructor
  · exact (createOrder_single_item_stock demoMedStore 1 paracetamol demoOrderItem
      demoOrderData 42 rfl rfl rfl).1 (by decide)
  · exact (createOrder_single_item_stock demoMedStore 1 paracetamol
      { demoOrderItem with quantity := 20 } demoBigOrderData 42 rfl rfl rfl).2 (by decide)

/-- Claim C9: marking an order paid succeeds exactly for an admin on a not-yet-
paid order, setting the paid flag, timestamp and payment-result payload;
an already-paid order or a non-admin principal yields an error and the
stored order is unchanged. -/
theorem updateOrderToPaid_spec (orders : OrderStore) (id : Nat) (payload : String)
    (authUser : AuthUser) (now : Nat) (o : Order)
    (h : lookupStore orders id = some o) :
    (o.isPaid = false → authUser.role = Role.admin →
      updateOrderToPaid orders id payload authUser now =
        (updateStore orders id
           { o with isPaid := true, paidAt := some now, paymentResult := some payload },
         .ok { o with isPaid := true, paidAt := some now, paymentResult := some payload })) ∧
    (o.isPaid = true →
      updateOrderToPaid orders id payload authUser now =
        (orders, .error ⟨"Order is already paid", 400⟩)) ∧
    (o.isPaid = false → authUser.role ≠ Role.admin →
      updateOrderToPaid orders id payload authUser now =
        (orders, .error ⟨"Not authorized to mark order as paid", 403⟩)) := by
  refine ⟨?_, ?_, ?_⟩
  · intro hp hr
    simp [updateOrderToPaid, h, hp, hr]
  · intro hp
    simp [updateOrderToPaid, h, hp]
  · intro hp hr
    simp [updateOrderToPaid, h, hp, hr]

/-- Witness for C9: an admin marks the demo order paid; a second marking
fails; the owner (non-admin) cannot mark it paid. -/
theorem updateOrderToPaid_spec_witness :
    (updateOrderToPaid demoOrderStore 5 "pay-ok" ⟨1, Role.admin⟩ 777 =
      (updateStore demoOrderStore 5
         { demoOrder with isPaid := true, paidAt := some 777,
                          paymentResult := some "pay-ok" },
       .ok { demoOrder with isPaid := true, paidAt := some 777,
                            paymentResult := some "pay-ok" })) ∧
    (updateOrderToPaid demoOrderStore 5 "pay-ok" ⟨42, Role.user⟩ 777 =
      (demoOrderStore, .error ⟨"Not authorized to mark order as paid", 403⟩)) := by
  constructor
  · exact (updateOrderToPaid_spec demoOrderStore 5 "pay-ok" ⟨1, Role.admin⟩ 777
      demoOrder rfl).1 rfl rfl
  · exact (updateOrderToPaid_spec demoOrderStore 5 "pay-ok" ⟨42, Role.user⟩ 777
      demoOrder rfl).2.2 rfl (by decide)

/-- Claim C2 evaluated at a failing input: `getMedicines` built via
`APIFeatures.filter().sort().limitFields().paginate()` never calls
`applyFind()`, so the `price[gte]=10` filter never reaches the query and
the price-5 medicine is returned even though it matches no supplied
filter. -/
theorem getMedicines_drops_filters :
    getMedicines [aspirinDoc] priceGte10Query = [aspirinDoc] ∧
    matchesAllFilters priceGte10Query aspirinDoc = false := by
  constructor
  · rfl
  · rfl

/-- Claim C4: when a keyword and an independent filter are both supplied to the
search-enabled query composition, membership in the result is exactly
conjunction of the keyword OR-group and ALL the filter conditions —
neither clobbers the other. -/
theorem searchFind_combines_with_and (coll : List MDoc) (qs : QueryString) (kw : String)
    (searchFields : List String) (d : MDoc)
    (hkw : qs.keyword = some kw) (hk : kw.isEmpty = false)
    (hsf : searchFields ≠ []) (hfc : filterConds qs ≠ []) :
    d ∈ searchFindResults coll qs searchFields ↔
      d ∈ coll ∧ searchFields.any (fun fd => matchCond d (Cond.regexI fd kw)) = true ∧
        matchesAllFilters qs d = true := by
  have hsc : (searchFields.map (fun fd => Cond.regexI fd kw)).isEmpty = false := by
    cases searchFields with
    | nil => exact absurd rfl hsf
    | cons a l => rfl
  have hfe : (filterConds qs).isEmpty = false := by
    cases hcase : filterConds qs with
    | nil => exact absurd hcase hfc
    | cons a l => rfl
  simp [searchFindResults, execQuery, newAPIFeatures, APIFeatures.search,
    APIFeatures.filter, APIFeatures.applyFind, hkw, hk, hsc, hfe,
    List.mem_filter, matchMCond, matchesAllFilters, List.any_map, List.all_map,
    Function.comp, and_assoc]

/-- Witness for C4: the keyword matches Aspirin's name but the
`category=Vitamins` filter fails, so the record is excluded; with
`category=Pain Relief` both match and it is included. -/
theorem searchFind_combines_with_and_witness :
    aspirinDoc ∉ searchFindResults [aspirinDoc] kwVitaminsQuery ["name", "description"] ∧
    aspirinDoc ∈ searchFindResults [aspirinDoc] kwPainReliefQuery ["name", "description"] := by
  constructor
  · intro hmem
    have h := (searchFind_combines_with_and [aspirinDoc] kwVitaminsQuery "aspirin"
      ["name", "description"] aspirinDoc rfl rfl (by decide) (by decide)).mp hmem
    exact absurd h.2.2 (by decide)
  · exact (searchFind_combines_with_and [aspirinDoc] kwPainReliefQuery "aspirin"
      ["name", "description"] aspirinDoc rfl rfl (by decide) (by decide)).mpr
      ⟨List.mem_singleton.mpr rfl, by decide, by decide⟩

/-- Claim C3: appointment creation fails when both or neither of doctor/lab are
supplied; with exactly one (and the referenced entity existing) it
succeeds, persisting type lab for a lab reference, the caller's type for
a doctor reference, and offline when the caller left the type
unspecified. -/
theorem createAppointment_exclusivity_and_type (doctors : DoctorStore) (labs : LabStore)
    (ad : AppointmentData) (userId : Nat) :
    (ad.doctor.isSome = true → ad.lab.isSome = true →
      createAppointment doctors labs ad userId =
        .error ⟨"An appointment cannot be associated with both a doctor and a lab.", 400⟩) ∧
    (ad.doctor = none → ad.lab = none →
      createAppointment doctors labs ad userId =
        .error ⟨"An appointment must be associated with either a doctor or a lab.", 400⟩) ∧
    (∀ did doc, ad.doctor = some did → ad.lab = none →
      lookupStore doctors did = some doc →
      ∃ a, createAppointment doctors labs ad userId = .ok a ∧
        a.doctor = some did ∧ a.lab = none ∧ a.status = .pending ∧ a.user = userId ∧
        a.type = ad.type.getD AppointmentType.offline) ∧
    (∀ lid lb, ad.doctor = none → ad.lab = some lid →
      lookupStore labs lid = some lb →
      ∃ a, createAppointment doctors labs ad userId = .ok a ∧
        a.doctor = none ∧ a.lab = some lid ∧ a.status = .pending ∧ a.user = userId ∧
        a.type = AppointmentType.lab) := by
  refine ⟨?_, ?_, ?_, ?_⟩
  · intro hd hl
    simp [createAppointment, hd, hl]
  · intro hd hl
    simp [createAppointment, hd, hl]
  · intro did doc hd hl hdoc
    refine ⟨{ user := userId, doctor := some did, lab := none,
              appointmentDate := ad.appointmentDate,
              appointmentTime := ad.appointmentTime,
              type := ad.type.getD AppointmentType.offline, status := .pending,
              reason := ad.reason,
              location := match doc.location, doc.clinicAddress with
                | some l, some addr => some ⟨l.coordinates, addr⟩
                | _, _ => none }, ?_, rfl, rfl, rfl, rfl, rfl⟩
    simp [createAppointment, hd, hl, hdoc]
  · intro lid lb hd hl hlb
    refine ⟨{ user := userId, doctor := none, lab := some lid,
              appointmentDate := ad.appointmentDate,
              appointmentTime := ad.appointmentTime,
              type := .lab, status := .pending,
              reason := ad.reason,
              location := match lb.location, lb.address with
                | some l, some addr => some ⟨l.coordinates, addr⟩
                | _, _ => none }, ?_, rfl, rfl, rfl, rfl, rfl⟩
    simp [createAppointment, hd, hl, hlb]

/-- Witness for C3: both references fail; a doctor reference with no type
persists offline; a lab reference with an explicit offline type persists
lab anyway. -/
theorem createAppointment_exclusivity_and_type_witness :
    (createAppointment demoDoctorStore demoLabStore
        { doctor := some 3, lab := some 8 } 42 =
      .error ⟨"An appointment cannot be associated with both a doctor and a lab.", 400⟩) ∧
    (∃ a, createAppointment demoDoctorStore demoLabStore { doctor := some 3 } 42 =
      .ok a ∧ a.doctor = some 3 ∧ a.lab = none ∧ a.status = .pending ∧ a.user = 42 ∧
      a.type = AppointmentType.offline) ∧
    (∃ a, createAppointment demoDoctorStore demoLabStore
        { lab := some 8, type := some .offline } 42 =
      .ok a ∧ a.doctor = none ∧ a.lab = some 8 ∧ a.status = .pending ∧ a.user = 42 ∧
      a.type = AppointmentType.lab) := by
  refine ⟨?_, ?_, ?_⟩
  · exact (createAppointment_exclusivity_and_type demoDoctorStore demoLabStore
      { doctor := some 3, lab := some 8 } 42).1 rfl rfl
  · exact (createAppointment_exclusivity_and_type demoDoctorStore demoLabStore
      { doctor := some 3 } 42).2.2.1 3 demoDoctor rfl rfl rfl
  · exact (createAppointment_exclusivity_and_type demoDoctorStore demoLabStore
      { lab := some 8, type := some .offline } 42).2.2.2 8
      { name := "Lab L", address := some "Lal Chowk" } rfl rfl rfl

/-- Claim C5: an update by a doctor-role principal assigned to the appointment
changes at most the status and reason fields: whatever else the payload
carries, every other stored field is unchanged. -/
theorem doctor_update_frame (appointments : AppointmentStore) (doctors : DoctorStore)
    (id : Nat) (upd : AppointmentUpdate) (authUser : AuthUser)
    (a : Appointment) (profileId : Nat) (prof : Doctor)
    (hrole : authUser.role = Role.doctor)
    (ha : lookupStore appointments id = some a)
    (hprof : findDoctorByUser doctors authUser.id = some (profileId, prof))
    (hassigned : a.doctor = some profileId) :
    ∃ a', updateAppointment appointments doctors id upd authUser =
        (updateStore appointments id a', .ok a') ∧
      a'.user = a.user ∧ a'.doctor = a.doctor ∧ a'.lab = a.lab ∧
      a'.appointmentDate = a.appointmentDate ∧
      a'.appointmentTime = a.appointmentTime ∧
      a'.type = a.type ∧ a'.location = a.location := by
  refine ⟨applyAppointmentUpdate a { status := upd.status, reason := upd.reason }, ?_,
    by simp [applyAppointmentUpdate], by simp [applyAppointmentUpdate],
    by simp [applyAppointmentUpdate], by simp [applyAppointmentUpdate],
    by simp [applyAppointmentUpdate], by simp [applyAppointmentUpdate],
    by simp [applyAppointmentUpdate]⟩
  simp [updateAppointment, ha, hrole, hprof, hassigned]

/-- Witness for C5: the assigned doctor sends a payload that also tries to
move the appointment to another date/time/type; only status and reason
can change, the rest stays. -/
theorem doctor_update_frame_witness :
    ∃ a', updateAppointment demoAppointmentStore demoDoctorStore 6 demoSneakyUpdate
        ⟨9, Role.doctor⟩ = (updateStore demoAppointmentStore 6 a', .ok a') ∧
      a'.user = demoAppointment.user ∧ a'.doctor = demoAppointment.doctor ∧
      a'.lab = demoAppointment.lab ∧
      a'.appointmentDate = demoAppointment.appointmentDate ∧
      a'.appointmentTime = demoAppointment.appointmentTime ∧
      a'.type = demoAppointment.type ∧ a'.location = demoAppointment.location :=
  doctor_update_frame demoAppointmentStore demoDoctorStore 6 demoSneakyUpdate
    ⟨9, Role.doctor⟩ demoAppointment 3 demoDoctor rfl rfl rfl rfl

/-- Claim C6: a user-role update succeeds exactly when the requester owns the
appointment and requests status cancelled, in which case the stored
status becomes cancelled; otherwise it is rejected with a 401
authorization error and the store is unchanged. -/
theorem user_update_cancel_only (appointments : AppointmentStore) (doctors : DoctorStore)
    (id : Nat) (upd : AppointmentUpdate) (authUser : AuthUser) (a : Appointment)
    (hrole : authUser.role = Role.user)
    (ha : lookupStore appointments id = some a) :
    (a.user = authUser.id → upd.status = some AppointmentStatus.cancelled →
      updateAppointment appointments doctors id upd authUser =
        (updateStore appointments id { a with status := .cancelled },
         .ok { a with status := .cancelled })) ∧
    (¬ (a.user = authUser.id ∧ upd.status = some AppointmentStatus.cancelled) →
      updateAppointment appointments doctors id upd authUser =
        (appointments, .error ⟨"User " ++ toString authUser.id ++
          " is not authorized to update this appointment or perform this action", 401⟩)) := by
  constructor
  · intro hown hst
    simp [updateAppointment, ha, hrole, hown, hst, applyAppointmentUpdate]
  · intro hno
    simp [updateAppointment, ha, hrole, hno]

/-- Witness for C6: the owner cancelling succeeds and stores cancelled;
the owner requesting confirmed is rejected 401 with the store unchanged,
and a non-owner requesting cancelled is rejected the same way. -/
theorem user_update_cancel_only_witness :
    (updateAppointment demoAppointmentStore demoDoctorStore 6
        { status := some .cancelled } ⟨42, Role.user⟩ =
      (updateStore demoAppointmentStore 6 { demoAppointment with status := .cancelled },
       .ok { demoAppointment with status := .cancelled })) ∧
    (updateAppointment demoAppointmentStore demoDoctorStore 6
        { status := some .confirmed } ⟨42, Role.user⟩ =
      (demoAppointmentStore, .error ⟨"User 42 is not authorized to update this appointment or perform this action", 401⟩)) ∧
    (updateAppointment demoAppointmentStore demoDoctorStore 6
        { status := some .cancelled } ⟨7, Role.user⟩ =
      (demoAppointmentStore, .error ⟨"User 7 is not authorized to update this appointment or perform this action", 401⟩)) := by
  refine ⟨?_, ?_, ?_⟩
  · exact (user_update_cancel_only demoAppointmentStore demoDoctorStore 6
      { status := some .cancelled } ⟨42, Role.user⟩ demoAppointment rfl rfl).1 rfl rfl
  · exact (user_update_cancel_only demoAppointmentStore demoDoctorStore 6
      { status := some .confirmed } ⟨42, Role.user⟩ demoAppointment rfl rfl).2
      (by intro h; exact absurd h.2 (by decide))
  · exact (user_update_cancel_only demoAppointmentStore demoDoctorStore 6
      { status := some .cancelled } ⟨7, Role.user⟩ demoAppointment rfl rfl).2
      (by intro h; exact absurd h.1 (by decide))

/-- Claim C7: issuance persists exactly the digest of the returned raw token
(never the raw token itself), reset hashes the supplied raw token the
same way before matching, so the correct raw token succeeds, clears the
token fields, and a second attempt with the same token fails. -/
theorem reset_token_one_way (hash : String → String) (raw newPassword : String)
    (u : UserDoc) (t now : Nat)
    (hraw : hash raw ≠ raw) (hnow : now < t + 600000) :
    (getResetPasswordToken hash raw t u).1 = raw ∧
    (getResetPasswordToken hash raw t u).2.resetPasswordToken = some (hash raw) ∧
    (getResetPasswordToken hash raw t u).2.resetPasswordToken ≠ some raw ∧
    (∃ u2,
      (resetPassword hash [(getResetPasswordToken hash raw t u).2] raw newPassword now).2
        = .ok u2 ∧
      u2.resetPasswordToken = none ∧ u2.resetPasswordExpire = none ∧
      u2.password = newPassword ∧
      (resetPassword hash
        (resetPassword hash [(getResetPasswordToken hash raw t u).2] raw newPassword now).1
        raw newPassword now).2 = .error ⟨"Invalid or expired reset token", 400⟩) := by
  refine ⟨rfl, rfl, ?_, ?_⟩
  · simpa [getResetPasswordToken] using hraw
  · refine ⟨{ u with
                password := newPassword
                resetPasswordToken := none
                resetPasswordExpire := none }, ?_, rfl, rfl, rfl, ?_⟩
    · simp [resetPassword, resetPasswordAux, getResetPasswordToken,
        resetTokenMatches, hnow]
    · simp [resetPassword, resetPasswordAux, getResetPasswordToken,
        resetTokenMatches, hnow]

/-- Witness for C7 at a concrete digest function, raw token and user. -/
theorem reset_token_one_way_witness :
    ∃ u2, (resetPassword demoHash [(getResetPasswordToken demoHash "tok" 0 demoUser).2]
        "tok" "newpw" 0).2 = .ok u2 ∧
      u2.resetPasswordToken = none ∧ u2.resetPasswordExpire = none ∧
      u2.password = "newpw" ∧
      (resetPassword demoHash (resetPassword demoHash
          [(getResetPasswordToken demoHash "tok" 0 demoUser).2] "tok" "newpw" 0).1
        "tok" "newpw" 0).2 = .error ⟨"Invalid or expired reset token", 400⟩ :=
  (reset_token_one_way demoHash "tok" "newpw" demoUser 0 0 (by decide) (by decide)).2.2.2

/-- Helper for C8: with no user of the requested email, the store is
untouched and the generic success is returned, for either notifier
outcome. -/
theorem forgotPasswordAux_no_match (hash : String → String) (email raw : String)
    (now : Nat) (ok : Bool) (users : List UserDoc)
    (hnone : ∀ u ∈ users, u.email ≠ email) :
    forgotPasswordAux hash email raw now ok users =
      (users, .ok ⟨200, true, "Email sent"⟩) := by
  induction users with
  | nil => rfl
  | cons u rest ih =>
    have hu : u.email ≠ email := hnone u (by simp)
    have hrest := ih (fun v hv => hnone v (List.mem_cons_of_mem u hv))
    simp [forgotPasswordAux, hu, hrest]

/-- Helper for C8: a genuine request (some user has the email, notifier
succeeds) returns the very same success payload. -/
theorem forgotPasswordAux_match (hash : String → String) (email raw : String)
    (now : Nat) (users : List UserDoc) :
    (∃ u ∈ users, u.email = email) →
    (forgotPasswordAux hash email raw now true users).2 =
      .ok ⟨200, true, "Email sent"⟩ := by
  induction users with
  | nil =>
    intro hsome
    obtain ⟨u, hu, _⟩ := hsome
    simp at hu
  | cons u rest ih =>
    intro hsome
    by_cases hu : u.email = email
    · simp [forgotPasswordAux, hu, getResetPasswordToken]
    · have hrest : ∃ v ∈ rest, v.email = email := by
        obtain ⟨v, hv, he⟩ := hsome
        rcases List.mem_cons.mp hv with h | h
        · subst h; exact absurd he hu
        · exact ⟨v, h, he⟩
      simp [forgotPasswordAux, hu, ih hrest]

/-- Claim C8: a forgot-password request for an unknown email leaves the user
store untouched (no token issued) and returns exactly the payload a
genuine successful request returns. -/
theorem forgotPassword_non_enumeration (hash : String → String) (users : List UserDoc)
    (email raw : String) (now : Nat)
    (hnone : ∀ u ∈ users, u.email ≠ email) :
    forgotPassword hash users email raw now true =
      (users, .ok ⟨200, true, "Email sent"⟩) ∧
    ∀ users' : List UserDoc, (∃ u ∈ users', u.email = email) →
      (forgotPassword hash users' email raw now true).2 =
        .ok ⟨200, true, "Email sent"⟩ :=
  ⟨forgotPasswordAux_no_match hash email raw now true users hnone,
   fun users' h => forgotPasswordAux_match hash email raw now users' h⟩

/-- Witness for C8: unknown email against the demo store answers the same
"Email sent" payload as the genuine request for the stored email, with
the store unchanged. -/
theorem forgotPassword_non_enumeration_witness :
    forgotPassword demoHash [demoUser] "x@y.z" "tok" 0 true =
      ([demoUser], .ok ⟨200, true, "Email sent"⟩) ∧
    (forgotPassword demoHash [demoUser] "a@b.c" "tok" 0 true).2 =
      .ok ⟨200, true, "Email sent"⟩ := by
  have h1 := forgotPassword_non_enumeration demoHash [demoUser] "x@y.z" "tok" 0 (by decide)
  have h2 := forgotPassword_non_enumeration demoHash [] "a@b.c" "tok" 0 (by simp)
  exact ⟨h1.1, h2.2 [demoUser] ⟨demoUser, by simp, rfl⟩⟩

/-- Claim C10: on a stored medicine whose optional owning-user field is absent,
both updateMedicine and deleteMedicine die with a TypeError for every
principal — the admin alternative never gets to short-circuit — while
with an owner present both operations always return an ordinary
allow/deny outcome. -/
theorem medicine_ownership_not_total (medicines : MedicineStore) (id : Nat)
    (upd : MedicineUpdate) (authUser : AuthUser) (m : Medicine)
    (h : lookupStore medicines id = some m) :
    (m.user = none →
      updateMedicine medicines id upd authUser =
        (medicines, .typeError "Cannot read properties of undefined (reading toString)") ∧
      deleteMedicine medicines id authUser =
        (medicines, .typeError "Cannot read properties of undefined (reading toString)")) ∧
    (m.user ≠ none →
      (updateMedicine medicines id upd authUser).2.isTypeError = false ∧
      (deleteMedicine medicines id authUser).2.isTypeError = false) := by
  constructor
  · intro hu
    exact ⟨by simp [updateMedicine, h, hu], by simp [deleteMedicine, h, hu]⟩
  · intro hu
    obtain ⟨owner, ho⟩ := Option.ne_none_iff_exists.mp hu
    constructor
    · simp only [updateMedicine, h, ← ho]
      split <;> simp [JsOutcome.isTypeError]
    · simp only [deleteMedicine, h, ← ho]
      split <;> simp [JsOutcome.isTypeError]

/-- Witness for C10: an admin hits the TypeError on the ownerless demo
medicine, and gets an ordinary outcome on the owned one. -/
theorem medicine_ownership_not_total_witness :
    (updateMedicine demoOwnerlessStore 2 {} ⟨1, Role.admin⟩ =
      (demoOwnerlessStore,
       .typeError "Cannot read properties of undefined (reading toString)") ∧
     deleteMedicine demoOwnerlessStore 2 ⟨1, Role.admin⟩ =
      (demoOwnerlessStore,
       .typeError "Cannot read properties of undefined (reading toString)")) ∧
    ((updateMedicine demoOwnedStore 2 {} ⟨1, Role.admin⟩).2.isTypeError = false ∧
     (deleteMedicine demoOwnedStore 2 ⟨1, Role.admin⟩).2.isTypeError = false) := by
  constructor
  · exact (medicine_ownership_not_total demoOwnerlessStore 2 {} ⟨1, Role.admin⟩
      { paracetamol with user := none } rfl).1 rfl
  · exact (medicine_ownership_not_total demoOwnedStore 2 {} ⟨1, Role.admin⟩
      { paracetamol with user := some 7 } rfl).2 (by decide)

end KW
